import Mathlib

/-!
Verification of the core logic of the PromptToHoneypot repository.

The development shallowly embeds the pure logic of the repository's
`utils.py` and `script.py`:

* `calculateGatewayIp` (utils.py, lines 46-52): parses an IPv4 CIDR string
  through Python's `ipaddress.IPv4Network(subnet, strict=False)` and returns
  the dotted-decimal rendering of `network_address + 1`.  The relevant parts
  of the CPython `ipaddress` module (octet parsing, netmask/hostmask
  handling, non-strict network normalisation, address range checking) are
  embedded faithfully below.
* `checkContainerStatus` / `checkContainerExists` (utils.py, lines 21-44):
  total wrappers around a `docker ps` query.  The external query is modelled
  by an `Option String`: `none` models the subprocess call raising (engine
  unavailable), `some out` models a completed call with standard output
  `out`.
* `extractRelevantContent` (script.py, lines 166-199): extraction of the
  first three regex fenced code blocks from a chat-completion response.
* `runDockerContainer` (script.py, lines 209-233): modelled as the trace of
  docker CLI invocations it issues, as a function of an engine oracle that
  decides which invocations succeed.
-/

namespace PromptToHoneypot

/-! ## Python string helpers -/

/-- The whitespace characters stripped by Python's `str.strip()` on ASCII
text: space, tab, newline, carriage return, vertical tab, form feed. -/
def isPySpace (c : Char) : Bool :=
  c = ' ' || c = '\t' || c = '\n' || c = '\r' || c = '\x0b' || c = '\x0c'

/-- Python `str.strip()` on a character list: drop whitespace from both
ends. -/
def pyStrip (l : List Char) : List Char :=
  ((l.dropWhile isPySpace).reverse.dropWhile isPySpace).reverse

/-- Python `str.strip()` on a `String`. -/
def pyStripStr (s : String) : String :=
  ⟨pyStrip s.data⟩

/-- Python `str.split(sep)` for a single-character separator: splits on every
occurrence of `sep`, keeping empty parts (`"".split(sep) == [""]`). -/
def splitOnChar (sep : Char) : List Char → List (List Char)
  | [] => [[]]
  | c :: rest =>
    match splitOnChar sep rest with
    | [] => [[]]
    | g :: gs => if c = sep then [] :: g :: gs else (c :: g) :: gs

/-- Value of a list of decimal digit characters, as computed by Python's
`int(s, 10)` (the callers below only apply it to all-digit strings). -/
def digitsVal (l : List Char) : Nat :=
  l.foldl (fun n c => n * 10 + (c.toNat - 48)) 0

/-! ## `ipaddress.IPv4Network` parsing (CPython `Lib/ipaddress.py`)

`calculateGatewayIp` in `utils.py` delegates all input validation to
`ipaddress.IPv4Network(subnet, strict=False)`.  The following definitions
embed the string-parsing path of that constructor. -/

/-- CPython `IPv4Address._parse_octet`: an octet must be a non-empty string
of at most three ASCII decimal digits, without leading zeros (except the
octet `"0"` itself), with value at most 255. -/
def parseOctet (l : List Char) : Option Nat :=
  if l = [] then none
  else if ¬ l.all Char.isDigit then none
  else if l.length > 3 then none
  else if l ≠ ['0'] ∧ l.head? = some '0' then none
  else if digitsVal l > 255 then none
  else some (digitsVal l)

/-- CPython `IPv4Address._ip_int_from_string`: exactly four octets separated
by dots, packed big-endian into one natural number below `2^32`. -/
def parseIPv4Address (l : List Char) : Option Nat :=
  match splitOnChar '.' l with
  | [a, b, c, d] =>
    match parseOctet a, parseOctet b, parseOctet c, parseOctet d with
    | some x, some y, some z, some w =>
      some (((x * 256 + y) * 256 + z) * 256 + w)
    | _, _, _, _ => none
  | _ => none

/-- CPython `_prefix_from_prefix_string`: the mask-length part must be a
non-empty string of ASCII decimal digits (so no sign and no whitespace)
whose value is at most 32.  Leading zeros are accepted here. -/
def parseMaskLen (l : List Char) : Option Nat :=
  if l ≠ [] ∧ l.all Char.isDigit then
    if digitsVal l ≤ 32 then some (digitsVal l) else none
  else none

/-- The netmask integer of a mask length `p`: the top `p` bits of a 32-bit
word set, i.e. `0b1…10…0` with `p` ones. -/
def netmaskOf (p : Nat) : Nat :=
  2 ^ 32 - 2 ^ (32 - p)

/-- CPython `_prefix_from_ip_int`: recover the mask length from a netmask
integer, failing unless the integer consists of contiguous ones followed by
contiguous zeros.  Such an integer equals `netmaskOf p` for exactly one
`p ≤ 32`, so searching `0..32` is equivalent to the source's
count-trailing-zeros-and-check computation. -/
def maskLenFromIpInt (m : Nat) : Option Nat :=
  (List.range 33).find? (fun p => m == netmaskOf p)

/-- CPython `IPv4Network._make_netmask` on a string argument: first try the
decimal mask-length form; otherwise parse the string as a dotted-decimal
address and accept it if it is a netmask, or, failing that, if its 32-bit
complement (`m XOR (2^32-1)`, i.e. `2^32 - 1 - m` for `m < 2^32`) is a
netmask (the hostmask form). -/
def parseNetmask (l : List Char) : Option Nat :=
  match parseMaskLen l with
  | some p => some p
  | none =>
    match parseIPv4Address l with
    | none => none
    | some m =>
      match maskLenFromIpInt m with
      | some p => some p
      | none => maskLenFromIpInt ((2 ^ 32 - 1) - m)

/-- Clearing the `32 - p` host bits of `ip`, i.e. `ip AND netmaskOf p` for
`ip < 2^32`: the low `32 - p` bits of `ip` are exactly `ip % 2^(32-p)`.
This is the non-strict normalisation `packed & int(self.netmask)` performed
by `IPv4Network.__init__` when `strict=False`. -/
def networkBase (ip p : Nat) : Nat :=
  ip - ip % 2 ^ (32 - p)

/-- CPython `IPv4Network(s)` on a string, returning the pair
`(network address, mask length)`.  `_split_addr_prefix` splits on `/`:
one part means mask length 32, two parts carry an explicit mask, more
than one `/` is rejected. -/
def parseIPv4Network (s : String) : Option (Nat × Nat) :=
  match splitOnChar '/' s.data with
  | [a] =>
    match parseIPv4Address a with
    | some ip => some (networkBase ip 32, 32)
    | none => none
  | [a, m] =>
    match parseIPv4Address a, parseNetmask m with
    | some ip, some p => some (networkBase ip p, p)
    | _, _ => none
  | _ => none

/-- `str(IPv4Address(n))`: dotted-decimal rendering of the four big-endian
bytes of `n`. -/
def ipv4ToString (n : Nat) : String :=
  toString (n / 16777216 % 256) ++ "." ++ toString (n / 65536 % 256) ++ "." ++
    toString (n / 256 % 256) ++ "." ++ toString (n % 256)

/-- `calculateGatewayIp` (utils.py, lines 46-52):
`str(IPv4Network(subnet, strict=False).network_address + 1)`, with every
`ValueError` re-raised as `Invalid subnet format`.  `IPv4Address.__add__`
constructs a fresh address and therefore re-checks the 32-bit range, so a
base address of `255.255.255.255` makes the addition itself raise an
`AddressValueError` (a `ValueError`), which the `except` clause also turns
into `Invalid subnet format`. -/
def calculateGatewayIp (subnet : String) : Except String String :=
  match parseIPv4Network subnet with
  | none => Except.error "Invalid subnet format"
  | some (base, _) =>
    if base + 1 ≤ 2 ^ 32 - 1 then Except.ok (ipv4ToString (base + 1))
    else Except.error "Invalid subnet format"

/-! ## Container status and existence checks (utils.py) -/

/-- `checkContainerStatus` (utils.py, lines 21-31).  The
`docker ps -f name=… --format {{.Status}}` call is modelled by `psOut`:
`none` when the call raises (engine missing or unreachable, absorbed by the
`except Exception` clause), `some out` when it completes with stdout `out`.
As in the source, a non-empty stripped stdout means `running`, an empty one
means `stopped`, and a raised query degrades to `unknown`. -/
def checkContainerStatus (containerName : String) (psOut : Option String) : String :=
  match psOut with
  | none => "unknown"
  | some out => if pyStripStr out ≠ "" then "running" else "stopped"

/-- `checkContainerExists` (utils.py, lines 33-44).  The
`docker ps -a -q -f name=…` call is modelled by `psOut` as above: the
stripped stdout (the container id, or the empty string when there is no
match) is returned, and a raised query is absorbed into the empty string. -/
def checkContainerExists (containerName : String) (psOut : Option String) : String :=
  match psOut with
  | none => ""
  | some out => pyStripStr out

/-! ## Container run sequence (script.py, lines 209-233)

`runDockerContainer` is a sequence of `subprocess.run(…, check=True)`
invocations.  It is modelled as the *trace* of docker CLI commands it
issues, as a function of an engine oracle recording the outcome of each
possible call: a `check=True` call that fails raises
`CalledProcessError`, which aborts the rest of the enclosing `try` block.
-/

/-- The reserved container name (`CONTAINER_NAME` in script.py). -/
def CONTAINER_NAME : String := "honeypot_container"

/-- The reserved image tag (`IMAGE_NAME` in script.py). -/
def IMAGE_NAME : String := "honeypot"

/-- One docker CLI invocation issued by `runDockerContainer` or
`createHostOnlyNetwork`.  `runContainer` records the published port pairs
`host:container` of the `-p` flags. -/
inductive DockerCmd where
  | stop (cid : String)
  | rm (cid : String)
  | networkInspect (network : String)
  | networkCreate (network subnet gateway : String)
  | runContainer (name network ip : String) (ports : List (Nat × Nat))
deriving DecidableEq, Repr

/-- Outcome oracle for the engine calls made by `runDockerContainer`:
`psQuery` is the outcome of the `docker ps -a -q -f name=…` query made by
`checkContainerExists` (`none` = the query raised), and each `…Ok` field
tells whether the corresponding `check=True` subprocess call exits with
status 0. -/
structure Engine where
  psQuery : Option String
  stopOk : Bool
  rmOk : Bool
  inspectOk : Bool

/-- `runDockerContainer(ip_address, network_name)` (script.py, lines
209-233), as the trace of issued docker commands.

First `try` block: `checkContainerExists` (which never raises); if it
returns a non-empty id, `docker stop` then `docker rm` with `check=True`;
then `docker network inspect` with `check=True`.  Any
`CalledProcessError` aborts the rest of that block and the `except`
handler calls `createHostOnlyNetwork(network_name, "192.168.200.0/24",
"192.168.200.1")` (whose own failure is caught internally and changes
nothing else).  The second `try` block then issues `docker run` with the
reserved name, the network, the requested ip and the fixed published
ports; its failure is only logged. -/
def runDockerContainer (e : Engine) (ip network : String) : List DockerCmd :=
  let existing := checkContainerExists CONTAINER_NAME e.psQuery
  let tryBlock : List DockerCmd × Bool :=
    if existing ≠ "" then
      if e.stopOk then
        if e.rmOk then
          ([DockerCmd.stop existing, DockerCmd.rm existing,
            DockerCmd.networkInspect network], !e.inspectOk)
        else
          ([DockerCmd.stop existing, DockerCmd.rm existing], true)
      else
        ([DockerCmd.stop existing], true)
    else
      ([DockerCmd.networkInspect network], !e.inspectOk)
  let afterNet :=
    if tryBlock.2 then
      tryBlock.1 ++ [DockerCmd.networkCreate network "192.168.200.0/24" "192.168.200.1"]
    else
      tryBlock.1
  afterNet ++
    [DockerCmd.runContainer CONTAINER_NAME network ip [(2222, 22), (8080, 80), (2121, 21)]]

/-! ## Artifact extraction (script.py, lines 166-199)

`extractRelevantContent` applies
`re.findall(r"((?:[^\n]*)\n([\s\S]*?)" with triple-backtick delimiters to
the first choice's message content: each match is an opening triple
backtick, the greedy rest of that line (the cosmetic label), a newline,
then the lazily shortest body up to the next closing triple backtick;
`findall` scans left to right, resuming after each match and advancing a
single character after a failed match attempt.  The functions below
implement exactly that scan on the character list of the content. -/

/-- The backtick character. -/
def btick : Char := Char.ofNat 96

/-- Does the text begin with the three-backtick fence marker? -/
def isFence (l : List Char) : Bool :=
  match l with
  | a :: b :: c :: _ => a = btick && b = btick && c = btick
  | _ => false

/-- Split at the first newline: `some (before, after)` when a newline
exists, `none` otherwise.  This is the `[^\n]*\n` part of the regex: the
greedy `[^\n]*` always stops exactly at the first newline.  The remainder
carries a length certificate so that the scanning loop below is visibly
terminating. -/
def splitAtNewline : (l : List Char) → Option (List Char × {r : List Char // r.length < l.length})
  | [] => none
  | c :: rest =>
    if c = '\n' then some ([], ⟨rest, by simp⟩)
    else
      match splitAtNewline rest with
      | none => none
      | some (pre, post) =>
        some (c :: pre, ⟨post.1, by have := post.2; simp only [List.length_cons]; omega⟩)

/-- Find the first closing triple-backtick fence: `some (body, after)`
where `body` is everything before the fence and `after` everything after
it.  This is the lazy `[\s\S]*?` of the regex followed by the closing
delimiter: the lazy quantifier stops at the first possible close.  The
remainder again carries a length certificate. -/
def findClose : (l : List Char) → Option (List Char × {r : List Char // r.length + 3 ≤ l.length})
  | [] => none
  | c :: rest =>
    if h : isFence (c :: rest) then
      some ([], ⟨rest.drop 2, by
        cases rest with
        | nil => simp [isFence] at h
        | cons y ys =>
          cases ys with
          | nil => simp [isFence] at h
          | cons z zs => simp only [List.drop, List.length_cons]; omega⟩)
    else
      match findClose rest with
      | none => none
      | some (body, after) =>
        some (c :: body, ⟨after.1, by have := after.2; simp only [List.length_cons]; omega⟩)

/-- The list of regex captures of
`re.findall(r"((?:[^\n]*)\n([\s\S]*?)", content)` (with triple-backtick
delimiters), in document order: at each position, if the three-backtick
fence starts here, match the rest of its line as the label, require a
newline, then capture the shortest body up to a closing fence and resume
scanning after that fence; if the attempt fails (no newline or no closing
fence), or no fence starts here, advance one character. -/
def findBlocks : List Char → List (List Char)
  | [] => []
  | c :: rest =>
    if isFence (c :: rest) then
      match splitAtNewline (rest.drop 2) with
      | none => findBlocks rest
      | some (_, afterNl) =>
        match findClose afterNl.1 with
        | none => findBlocks rest
        | some (body, afterClose) => body :: findBlocks afterClose.1
    else findBlocks rest
termination_by l => l.length
decreasing_by
  all_goals simp only [List.length_cons]
  all_goals first
    | omega
    | (have h1 := afterClose.2
       have h2 := afterNl.2
       have h3 : (List.drop 2 rest).length ≤ rest.length := by
         simp only [List.length_drop]; omega
       omega)

/-- The message carried by one choice of the chat-completion response; the
extractor reads `choices[0]["message"]["content"]` with `""` as the default
for a missing field, so the content is just a string. -/
structure Message where
  content : String
deriving DecidableEq, Repr

/-- One entry of the `choices` list of the response. -/
structure Choice where
  message : Message
deriving DecidableEq, Repr

/-- The part of the chat-completion response consumed by
`extractRelevantContent`: the `choices` list. -/
structure GptResponse where
  choices : List Choice
deriving DecidableEq, Repr

/-- The artifact set returned by a successful extraction: the dictionary
`{"Dockerfile": …, "supervisord.conf": …, "setup_services.sh": …}` built at
script.py lines 183-187, each value already stripped. -/
structure ExtractedArtifactSet where
  dockerfile : List Char
  supervisordConf : List Char
  setupServicesSh : List Char
deriving DecidableEq, Repr

/-- The part of `extractRelevantContent` operating on the message content
(script.py, lines 172-199): fail on empty content, find the fenced code
blocks, fail when fewer than three are found, bind the first three in
document order to the three artifact names after stripping, and fail when
any stripped value is empty (`if not all(extracted.values())`). -/
def extractFromText (mc : String) : Option ExtractedArtifactSet :=
  if mc = "" then none
  else
    match findBlocks mc.data with
    | b0 :: b1 :: b2 :: _ =>
      if pyStrip b0 = [] ∨ pyStrip b1 = [] ∨ pyStrip b2 = [] then none
      else some ⟨pyStrip b0, pyStrip b1, pyStrip b2⟩
    | _ => none

/-- `extractRelevantContent` (script.py, lines 166-199): `None` when the
`choices` list is empty, otherwise extraction from the first choice's
message content. -/
def extractRelevantContent (r : GptResponse) : Option ExtractedArtifactSet :=
  match r.choices with
  | [] => none
  | ch :: _ => extractFromText ch.message.content

/-! ## Completion texts built from three labelled fenced blocks -/

/-- A fenced block with label line `lab`, body `body`, followed by `rest`:
`` ```lab\nbody``` `` followed by `rest`. -/
def mkBlock (lab body rest : List Char) : List Char :=
  btick :: btick :: btick :: (lab ++ '\n' :: (body ++ btick :: btick :: btick :: rest))

/-- A completion text consisting of exactly three labelled fenced blocks in
document order. -/
def mkThreeBlockText (l1 A l2 B l3 C : List Char) : List Char :=
  mkBlock l1 A (mkBlock l2 B (mkBlock l3 C []))

/-- A single-choice response whose message content is the given text. -/
def mkResponseOfText (l : List Char) : GptResponse :=
  ⟨[⟨⟨⟨l⟩⟩⟩]⟩

/-! ## Helper lemmas -/

/-- Splitting a list that contains no separator yields a single part. -/
theorem splitOnChar_no_sep (sep : Char) (l : List Char) (h : ∀ c ∈ l, c ≠ sep) :
    splitOnChar sep l = [l] := by
  induction l with
  | nil => rfl
  | cons c cs ih =>
    have hc : c ≠ sep := h c (by simp)
    have hcs : ∀ x ∈ cs, x ≠ sep := fun x hx => h x (by simp [hx])
    simp only [splitOnChar, ih hcs]
    rw [if_neg hc]

/-! ## Claims about the gateway calculator -/

/-- Claim C3 (amended): for every parseable IPv4 CIDR string, the gateway
calculator returns the network base address plus one in dotted-decimal
form, for any mask length including 32, provided the successor still fits
in the IPv4 range; the all-ones base address is the sole exception (see
the counterexample below). -/
theorem c3_gateway_is_base_plus_one (s : String) (base p : Nat)
    (hparse : parseIPv4Network s = some (base, p))
    (hroom : base + 1 ≤ 2 ^ 32 - 1) :
    calculateGatewayIp s = Except.ok (ipv4ToString (base + 1)) := by
  simp only [calculateGatewayIp, hparse]
  rw [if_pos hroom]

/-- Witness for `c3_gateway_is_base_plus_one` at the spec's example input
`192.168.200.0/24`, whose gateway renders as `192.168.200.1`. -/
theorem c3_gateway_is_base_plus_one_witness :
    parseIPv4Network "192.168.200.0/24" = some (3232286720, 24) ∧
    ipv4ToString (3232286720 + 1) = "192.168.200.1" ∧
    calculateGatewayIp "192.168.200.0/24" = Except.ok (ipv4ToString (3232286720 + 1)) :=
  ⟨by rfl, by rfl,
    c3_gateway_is_base_plus_one "192.168.200.0/24" 3232286720 24 (by rfl) (by decide)⟩

/-- Claim C3 counterexample: `255.255.255.255/32` is a parseable IPv4 CIDR
string (its base address is `255.255.255.255`), yet the calculator does not
return base plus one: the successor overflows the IPv4 range, the
re-constructed address raises, and the calculator fails instead. -/
theorem c3_all_ones_slash32_counterexample :
    parseIPv4Network "255.255.255.255/32" = some (4294967295, 32) ∧
    calculateGatewayIp "255.255.255.255/32" = Except.error "Invalid subnet format" := by
  constructor <;> rfl

/-- Claim C6: every input string rejected by the IPv4 network parser makes
the gateway calculator fail with the invalid-subnet-format condition, and
no address is ever produced for it. -/
theorem c6_invalid_subnet_rejected (s : String)
    (h : parseIPv4Network s = none) :
    calculateGatewayIp s = Except.error "Invalid subnet format" ∧
    ∀ g, calculateGatewayIp s ≠ Except.ok g := by
  refine ⟨by simp [calculateGatewayIp, h], fun g => by simp [calculateGatewayIp, h]⟩

/-- Witness for `c6_invalid_subnet_rejected` at the spec's two example
inputs: a non-numeric string and a mask length of 33. -/
theorem c6_invalid_subnet_rejected_witness :
    (parseIPv4Network "not-a-subnet" = none ∧
      calculateGatewayIp "not-a-subnet" = Except.error "Invalid subnet format") ∧
    (parseIPv4Network "10.0.0.0/33" = none ∧
      calculateGatewayIp "10.0.0.0/33" = Except.error "Invalid subnet format") :=
  ⟨⟨by rfl, (c6_invalid_subnet_rejected "not-a-subnet" (by rfl)).1⟩,
    ⟨by rfl, (c6_invalid_subnet_rejected "10.0.0.0/33" (by rfl)).1⟩⟩

/-- Claim C10 (amended): a bare IPv4 address string without a `/` is
accepted and parsed as a `/32` network, and the calculator returns the
address plus one rather than failing — provided the successor still fits
in the IPv4 range; the bare all-ones address is the sole exception (see
the counterexample below). -/
theorem c10_bare_address_is_slash32 (s : String) (ip : Nat)
    (hsl : ∀ c ∈ s.data, c ≠ '/')
    (hip : parseIPv4Address s.data = some ip)
    (hroom : ip + 1 ≤ 2 ^ 32 - 1) :
    parseIPv4Network s = some (ip, 32) ∧
    calculateGatewayIp s = Except.ok (ipv4ToString (ip + 1)) := by
  have hsplit := splitOnChar_no_sep '/' s.data hsl
  have hbase : networkBase ip 32 = ip := by
    simp [networkBase, Nat.mod_one]
  have hparse : parseIPv4Network s = some (ip, 32) := by
    simp [parseIPv4Network, hsplit, hip, hbase]
  refine ⟨hparse, ?_⟩
  simp only [calculateGatewayIp, hparse]
  rw [if_pos hroom]

/-- Witness for `c10_bare_address_is_slash32` at the bare address
`192.168.1.5`, whose gateway renders as `192.168.1.6`. -/
theorem c10_bare_address_is_slash32_witness :
    parseIPv4Network "192.168.1.5" = some (3232235781, 32) ∧
    calculateGatewayIp "192.168.1.5" = Except.ok (ipv4ToString (3232235781 + 1)) ∧
    ipv4ToString (3232235781 + 1) = "192.168.1.6" := by
  have h := c10_bare_address_is_slash32 "192.168.1.5" 3232235781 (by decide) (by rfl) (by decide)
  exact ⟨h.1, h.2, by rfl⟩

/-- Claim C10 counterexample: the bare all-ones address `255.255.255.255`
is accepted and parsed as a `/32` network, but the calculator fails with
the invalid-subnet-format condition instead of returning the address plus
one, because the successor overflows the IPv4 range. -/
theorem c10_all_ones_bare_counterexample :
    parseIPv4Network "255.255.255.255" = some (4294967295, 32) ∧
    calculateGatewayIp "255.255.255.255" = Except.error "Invalid subnet format" := by
  constructor <;> rfl

/-! ## Claims about the container status and existence checks -/

/-- Claim C5: the status check is total (it is a Lean function, so it
never raises) and returns exactly one of `running`, `stopped`, `unknown`:
a failed engine query degrades to `unknown`, an engine answer whose
stripped output is empty means `stopped`, and a non-empty one means
`running`. -/
theorem c5_status_ternary_total (containerName : String) (psOut : Option String) :
    (checkContainerStatus containerName psOut = "running" ∨
      checkContainerStatus containerName psOut = "stopped" ∨
      checkContainerStatus containerName psOut = "unknown") ∧
    (psOut = none → checkContainerStatus containerName psOut = "unknown") ∧
    (∀ out, psOut = some out → pyStripStr out = "" →
      checkContainerStatus containerName psOut = "stopped") ∧
    (∀ out, psOut = some out → pyStripStr out ≠ "" →
      checkContainerStatus containerName psOut = "running") := by
  refine ⟨?_, ?_, ?_, ?_⟩
  · cases psOut with
    | none => right; right; rfl
    | some out =>
      by_cases h : pyStripStr out = ""
      · right; left; simp [checkContainerStatus, h]
      · left; simp [checkContainerStatus, h]
  · intro h; subst h; rfl
  · intro out h hempty; subst h; simp [checkContainerStatus, hempty]
  · intro out h hne; subst h; simp [checkContainerStatus, hne]

/-- Witness for `c5_status_ternary_total`: a query with a matching entry
yields `running`, a blank answer yields `stopped`, a raised query yields
`unknown`. -/
theorem c5_status_ternary_total_witness :
    checkContainerStatus "honeypot_container" (some "Up 5 seconds\n") = "running" ∧
    checkContainerStatus "honeypot_container" (some "\n") = "stopped" ∧
    checkContainerStatus "honeypot_container" none = "unknown" :=
  ⟨(c5_status_ternary_total "honeypot_container" (some "Up 5 seconds\n")).2.2.2
      "Up 5 seconds\n" rfl (by decide),
    (c5_status_ternary_total "honeypot_container" (some "\n")).2.2.1 "\n" rfl (by decide),
    (c5_status_ternary_total "honeypot_container" none).2.1 rfl⟩

/-- Claim C9: the container-existence check is total and returns either
the stripped engine answer (the container id, possibly empty) or the
empty string; a raised engine query is absorbed into the empty string. -/
theorem c9_exists_check_total (containerName : String) (psOut : Option String) :
    (checkContainerExists containerName psOut = "" ∨
      ∃ out, psOut = some out ∧ checkContainerExists containerName psOut = pyStripStr out) ∧
    (psOut = none → checkContainerExists containerName psOut = "") := by
  refine ⟨?_, ?_⟩
  · cases psOut with
    | none => left; rfl
    | some out => right; exact ⟨out, rfl, rfl⟩
  · intro h; subst h; rfl

/-- Witness for `c9_exists_check_total`: a raised engine query yields the
empty string, and an answer `abc123\n` yields the id `abc123`. -/
theorem c9_exists_check_total_witness :
    checkContainerExists "honeypot_container" none = "" ∧
    (checkContainerExists "honeypot_container" (some "abc123\n") = "" ∨
      ∃ out, (some "abc123\n" : Option String) = some out ∧
        checkContainerExists "honeypot_container" (some "abc123\n") = pyStripStr out) :=
  ⟨(c9_exists_check_total "honeypot_container" none).2 rfl,
    (c9_exists_check_total "honeypot_container" (some "abc123\n")).1⟩

/-! ## Claim about the run sequence -/

/-- Claim C4: in the trace of docker commands issued by
`runDockerContainer`, (a) when an instance under the reserved name exists
and the stop and remove calls succeed, the trace begins with stop, then
remove, then the network existence check; (b) whenever the network
existence check is reached and fails, the default network create call
with subnet `192.168.200.0/24` and gateway `192.168.200.1` immediately
precedes the final run call; (c) a failing stop aborts the remaining
sequence (no remove, no inspect are issued); (d) a failing remove aborts
the remaining sequence (no inspect is issued); (e) when every call
succeeds no create is issued; and (f) the run call is always the last
command. -/
theorem c4_run_stop_rm_create_sequence (e : Engine) (ip network existing : String)
    (t : List DockerCmd)
    (hex : existing = checkContainerExists CONTAINER_NAME e.psQuery)
    (ht : t = runDockerContainer e ip network) :
    (existing ≠ "" → e.stopOk = true → e.rmOk = true →
      ∃ rest, t = DockerCmd.stop existing :: DockerCmd.rm existing ::
        DockerCmd.networkInspect network :: rest) ∧
    ((existing = "" ∨ (e.stopOk = true ∧ e.rmOk = true)) → e.inspectOk = false →
      ∃ early, t = early ++
        [DockerCmd.networkCreate network "192.168.200.0/24" "192.168.200.1",
          DockerCmd.runContainer CONTAINER_NAME network ip [(2222, 22), (8080, 80), (2121, 21)]]) ∧
    (existing ≠ "" → e.stopOk = false →
      t = [DockerCmd.stop existing,
        DockerCmd.networkCreate network "192.168.200.0/24" "192.168.200.1",
        DockerCmd.runContainer CONTAINER_NAME network ip [(2222, 22), (8080, 80), (2121, 21)]]) ∧
    (existing ≠ "" → e.stopOk = true → e.rmOk = false →
      t = [DockerCmd.stop existing, DockerCmd.rm existing,
        DockerCmd.networkCreate network "192.168.200.0/24" "192.168.200.1",
        DockerCmd.runContainer CONTAINER_NAME network ip [(2222, 22), (8080, 80), (2121, 21)]]) ∧
    (existing ≠ "" → e.stopOk = true → e.rmOk = true → e.inspectOk = true →
      t = [DockerCmd.stop existing, DockerCmd.rm existing, DockerCmd.networkInspect network,
        DockerCmd.runContainer CONTAINER_NAME network ip [(2222, 22), (8080, 80), (2121, 21)]]) ∧
    t.getLast? =
      some (DockerCmd.runContainer CONTAINER_NAME network ip [(2222, 22), (8080, 80), (2121, 21)]) := by
  subst hex ht
  refine ⟨?_, ?_, ?_, ?_, ?_, ?_⟩
  · intro hne hstop hrm
    by_cases hin : e.inspectOk
    · exact ⟨[DockerCmd.runContainer CONTAINER_NAME network ip [(2222, 22), (8080, 80), (2121, 21)]],
        by simp [runDockerContainer, hne, hstop, hrm, hin]⟩
    · exact ⟨[DockerCmd.networkCreate network "192.168.200.0/24" "192.168.200.1",
        DockerCmd.runContainer CONTAINER_NAME network ip [(2222, 22), (8080, 80), (2121, 21)]],
        by simp [runDockerContainer, hne, hstop, hrm, hin]⟩
  · rintro (hne | ⟨hstop, hrm⟩) hin
    · exact ⟨[DockerCmd.networkInspect network], by simp [runDockerContainer, hne, hin]⟩
    · by_cases hne : checkContainerExists CONTAINER_NAME e.psQuery = ""
      · exact ⟨[DockerCmd.networkInspect network],
          by simp [runDockerContainer, hne, hstop, hrm, hin]⟩
      · exact ⟨[DockerCmd.stop (checkContainerExists CONTAINER_NAME e.psQuery),
          DockerCmd.rm (checkContainerExists CONTAINER_NAME e.psQuery),
          DockerCmd.networkInspect network],
          by simp [runDockerContainer, hne, hstop, hrm, hin]⟩
  · intro hne hstop
    simp [runDockerContainer, if_pos hne, hstop]
  · intro hne hstop hrm
    simp [runDockerContainer, if_pos hne, hstop, hrm]
  · intro hne hstop hrm hin
    simp [runDockerContainer, if_pos hne, hstop, hrm, hin]
  · simp only [runDockerContainer]
    exact List.getLast?_concat _

/-- Witness for `c4_run_stop_rm_create_sequence`: one engine oracle with an
existing container and a failing network check (discharging the
hypotheses of parts (a), (b), (f)), and one with a failing stop call
(discharging part (c)) and one with a failing remove call (part (d)) and
one with every call succeeding (part (e)). -/
theorem c4_run_stop_rm_create_sequence_witness :
    runDockerContainer ⟨some "abc123\n", true, true, false⟩ "192.168.100.10" "honeynet" =
      [DockerCmd.stop "abc123", DockerCmd.rm "abc123", DockerCmd.networkInspect "honeynet",
        DockerCmd.networkCreate "honeynet" "192.168.200.0/24" "192.168.200.1",
        DockerCmd.runContainer "honeypot_container" "honeynet" "192.168.100.10"
          [(2222, 22), (8080, 80), (2121, 21)]] ∧
    runDockerContainer ⟨some "abc123\n", false, true, true⟩ "192.168.100.10" "honeynet" =
      [DockerCmd.stop "abc123",
        DockerCmd.networkCreate "honeynet" "192.168.200.0/24" "192.168.200.1",
        DockerCmd.runContainer "honeypot_container" "honeynet" "192.168.100.10"
          [(2222, 22), (8080, 80), (2121, 21)]] ∧
    runDockerContainer ⟨some "abc123\n", true, false, true⟩ "192.168.100.10" "honeynet" =
      [DockerCmd.stop "abc123", DockerCmd.rm "abc123",
        DockerCmd.networkCreate "honeynet" "192.168.200.0/24" "192.168.200.1",
        DockerCmd.runContainer "honeypot_container" "honeynet" "192.168.100.10"
          [(2222, 22), (8080, 80), (2121, 21)]] ∧
    runDockerContainer ⟨some "abc123\n", true, true, true⟩ "192.168.100.10" "honeynet" =
      [DockerCmd.stop "abc123", DockerCmd.rm "abc123", DockerCmd.networkInspect "honeynet",
        DockerCmd.runContainer "honeypot_container" "honeynet" "192.168.100.10"
          [(2222, 22), (8080, 80), (2121, 21)]] := by
  have h1 := c4_run_stop_rm_create_sequence ⟨some "abc123\n", true, true, false⟩
    "192.168.100.10" "honeynet" "abc123" _ (by rfl) rfl
  have h2 := c4_run_stop_rm_create_sequence ⟨some "abc123\n", false, true, true⟩
    "192.168.100.10" "honeynet" "abc123" _ (by rfl) rfl
  have h3 := c4_run_stop_rm_create_sequence ⟨some "abc123\n", true, false, true⟩
    "192.168.100.10" "honeynet" "abc123" _ (by rfl) rfl
  have h4 := c4_run_stop_rm_create_sequence ⟨some "abc123\n", true, true, true⟩
    "192.168.100.10" "honeynet" "abc123" _ (by rfl) rfl
  refine ⟨?_, h2.2.2.1 (by decide) rfl, h3.2.2.2.1 (by decide) rfl rfl,
    h4.2.2.2.2.1 (by decide) rfl rfl rfl⟩
  obtain ⟨rest, hrest⟩ := h1.1 (by decide) rfl rfl
  obtain ⟨early, hearly⟩ := h1.2.1 (Or.inr ⟨rfl, rfl⟩) rfl
  exact by rfl

/-! ## Lemmas about the fenced-block scan -/

/-- The scan of the empty text finds no block. -/
theorem findBlocks_nil : findBlocks [] = [] := by
  simp [findBlocks]

/-- One unfolding step of the scan on a non-empty text. -/
theorem findBlocks_cons (c : Char) (rest : List Char) :
    findBlocks (c :: rest) =
      if isFence (c :: rest) then
        match splitAtNewline (rest.drop 2) with
        | none => findBlocks rest
        | some (_, afterNl) =>
          match findClose afterNl.1 with
          | none => findBlocks rest
          | some (body, afterClose) => body :: findBlocks afterClose.1
      else findBlocks rest := by
  rw [findBlocks]

/-- A label line without a newline is consumed whole by `splitAtNewline`. -/
theorem splitAtNewline_append (lab r : List Char) (hlab : ∀ c ∈ lab, c ≠ '\n') :
    ∃ s, splitAtNewline (lab ++ '\n' :: r) = some (lab, s) ∧ s.1 = r := by
  induction lab with
  | nil =>
    refine ⟨⟨r, by simp⟩, ?_, rfl⟩
    simp [splitAtNewline]
  | cons c cs ih =>
    have hc : c ≠ '\n' := hlab c (by simp)
    have hcs : ∀ x ∈ cs, x ≠ '\n' := fun x hx => hlab x (by simp [hx])
    obtain ⟨s, hs, hv⟩ := ih hcs
    rw [List.cons_append, splitAtNewline]
    rw [if_neg hc, hs]
    exact ⟨_, rfl, hv⟩

/-- A backtick-free body followed by a closing fence is consumed whole by
`findClose`, which resumes right after the fence. -/
theorem findClose_append (A r : List Char) (hA : ∀ c ∈ A, c ≠ btick) :
    ∃ s, findClose (A ++ btick :: btick :: btick :: r) = some (A, s) ∧ s.1 = r := by
  induction A with
  | nil =>
    rw [List.nil_append, findClose]
    rw [dif_pos (by simp [isFence])]
    exact ⟨_, rfl, rfl⟩
  | cons a as ih =>
    have ha : a ≠ btick := hA a (by simp)
    have has : ∀ x ∈ as, x ≠ btick := fun x hx => hA x (by simp [hx])
    obtain ⟨s, hs, hv⟩ := ih has
    rw [List.cons_append, findClose]
    have hfence : ¬ (isFence (a :: (as ++ btick :: btick :: btick :: r)) = true) := by
      cases as with
      | nil => simp [isFence, ha]
      | cons y ys =>
        cases ys with
        | nil => simp [isFence, ha]
        | cons z zs => simp [isFence, ha]
    rw [dif_neg hfence, hs]
    exact ⟨_, rfl, hv⟩

/-- Scanning a fenced block with a newline-free label line and a
backtick-free body captures exactly the body and resumes after the
closing fence. -/
theorem findBlocks_mkBlock (lab A r : List Char)
    (hlab : ∀ c ∈ lab, c ≠ '\n') (hA : ∀ c ∈ A, c ≠ btick) :
    findBlocks (mkBlock lab A r) = A :: findBlocks r := by
  obtain ⟨s1, hs1, hv1⟩ := splitAtNewline_append lab (A ++ btick :: btick :: btick :: r) hlab
  show findBlocks
      (btick :: btick :: btick :: (lab ++ '\n' :: (A ++ btick :: btick :: btick :: r))) =
    A :: findBlocks r
  rw [findBlocks_cons]
  rw [if_pos (by simp [isFence])]
  simp only [List.drop_succ_cons, List.drop_zero]
  rw [hs1]
  simp only []
  obtain ⟨v1, hp1⟩ := s1
  simp only at hv1
  subst hv1
  obtain ⟨s2, hs2, hv2⟩ := findClose_append A r hA
  rw [hs2]
  simp only []
  obtain ⟨v2, hp2⟩ := s2
  simp only at hv2
  subst hv2
  rfl

/-- The block list of a text made of three fenced blocks. -/
theorem findBlocks_mkThreeBlockText (l1 A l2 B l3 C : List Char)
    (hl1 : ∀ c ∈ l1, c ≠ '\n') (hl2 : ∀ c ∈ l2, c ≠ '\n') (hl3 : ∀ c ∈ l3, c ≠ '\n')
    (hA : ∀ c ∈ A, c ≠ btick) (hB : ∀ c ∈ B, c ≠ btick) (hC : ∀ c ∈ C, c ≠ btick) :
    findBlocks (mkThreeBlockText l1 A l2 B l3 C) = [A, B, C] := by
  show findBlocks (mkBlock l1 A (mkBlock l2 B (mkBlock l3 C []))) = [A, B, C]
  rw [findBlocks_mkBlock l1 A _ hl1 hA, findBlocks_mkBlock l2 B _ hl2 hB,
    findBlocks_mkBlock l3 C _ hl3 hC, findBlocks_nil]

/-! ## Claims about the artifact extractor -/

/-- Claim C1: extraction binds the first three fenced blocks in document
order positionally — first to `Dockerfile`, second to `supervisord.conf`,
third to `setup_services.sh` — regardless of fence labels, each value
stripped of surrounding whitespace.  The first part states this for every
response whose content scan finds at least three blocks with non-empty
stripped bodies; the second part instantiates it on a text built of
exactly three fenced blocks with arbitrary newline-free labels and
backtick-free bodies. -/
theorem c1_first_three_blocks_positional :
    (∀ (r : GptResponse) ch t b0 b1 b2 rest,
      r.choices = ch :: t →
      ch.message.content ≠ "" →
      findBlocks ch.message.content.data = b0 :: b1 :: b2 :: rest →
      pyStrip b0 ≠ [] → pyStrip b1 ≠ [] → pyStrip b2 ≠ [] →
      extractRelevantContent r = some ⟨pyStrip b0, pyStrip b1, pyStrip b2⟩) ∧
    (∀ l1 A l2 B l3 C,
      (∀ c ∈ l1, c ≠ '\n') → (∀ c ∈ l2, c ≠ '\n') → (∀ c ∈ l3, c ≠ '\n') →
      (∀ c ∈ A, c ≠ btick) → (∀ c ∈ B, c ≠ btick) → (∀ c ∈ C, c ≠ btick) →
      pyStrip A ≠ [] → pyStrip B ≠ [] → pyStrip C ≠ [] →
      extractRelevantContent (mkResponseOfText (mkThreeBlockText l1 A l2 B l3 C)) =
        some ⟨pyStrip A, pyStrip B, pyStrip C⟩) := by
  have main : ∀ (r : GptResponse) ch t b0 b1 b2 rest,
      r.choices = ch :: t →
      ch.message.content ≠ "" →
      findBlocks ch.message.content.data = b0 :: b1 :: b2 :: rest →
      pyStrip b0 ≠ [] → pyStrip b1 ≠ [] → pyStrip b2 ≠ [] →
      extractRelevantContent r = some ⟨pyStrip b0, pyStrip b1, pyStrip b2⟩ := by
    intro r ch t b0 b1 b2 rest hch hne hfb h0 h1 h2
    simp only [extractRelevantContent, hch]
    simp only [extractFromText]
    rw [if_neg hne, hfb]
    simp only []
    rw [if_neg (by simp [h0, h1, h2])]
  refine ⟨main, ?_⟩
  intro l1 A l2 B l3 C hl1 hl2 hl3 hA hB hC hA' hB' hC'
  have hfb := findBlocks_mkThreeBlockText l1 A l2 B l3 C hl1 hl2 hl3 hA hB hC
  have hne : (⟨mkThreeBlockText l1 A l2 B l3 C⟩ : String) ≠ "" := by
    intro h
    have hdata : mkThreeBlockText l1 A l2 B l3 C = [] := congrArg String.data h
    simp [mkThreeBlockText, mkBlock] at hdata
  exact main _ ⟨⟨⟨mkThreeBlockText l1 A l2 B l3 C⟩⟩⟩ [] A B C [] rfl hne hfb hA' hB' hC'

/-- Witness for `c1_first_three_blocks_positional`: a three-block text with
labels `Dockerfile`, `ini`, `bash`, bound positionally; both parts of the
theorem are applied to it. -/
theorem c1_first_three_blocks_positional_witness :
    extractRelevantContent (mkResponseOfText (mkThreeBlockText
        "Dockerfile".data "FROM ubuntu:14.04".data
        "ini".data " [supervisord]\nnodaemon=true ".data
        "bash".data "#!/bin/bash".data)) =
      some ⟨pyStrip "FROM ubuntu:14.04".data, pyStrip " [supervisord]\nnodaemon=true ".data,
        pyStrip "#!/bin/bash".data⟩ ∧
    pyStrip " [supervisord]\nnodaemon=true ".data = "[supervisord]\nnodaemon=true".data := by
  refine ⟨?_, by decide⟩
  have h2 := c1_first_three_blocks_positional.2
    "Dockerfile".data "FROM ubuntu:14.04".data
    "ini".data " [supervisord]\nnodaemon=true ".data
    "bash".data "#!/bin/bash".data
    (by decide) (by decide) (by decide) (by decide) (by decide) (by decide)
    (by decide) (by decide) (by decide)
  have h1 := c1_first_three_blocks_positional.1
    (mkResponseOfText (mkThreeBlockText
      "Dockerfile".data "FROM ubuntu:14.04".data
      "ini".data " [supervisord]\nnodaemon=true ".data
      "bash".data "#!/bin/bash".data))
    ⟨⟨⟨mkThreeBlockText "Dockerfile".data "FROM ubuntu:14.04".data
      "ini".data " [supervisord]\nnodaemon=true ".data
      "bash".data "#!/bin/bash".data⟩⟩⟩ []
    "FROM ubuntu:14.04".data " [supervisord]\nnodaemon=true ".data "#!/bin/bash".data []
    rfl (by decide)
    (findBlocks_mkThreeBlockText _ _ _ _ _ _
      (by decide) (by decide) (by decide) (by decide) (by decide) (by decide))
    (by decide) (by decide) (by decide)
  exact h1

/-- Claim C2: extraction is all-or-nothing — whenever the scan of the
first choice's content finds fewer than three fenced blocks, or any of the
first three blocks strips to the empty string, the extractor returns no
artifact set at all. -/
theorem c2_all_or_nothing (r : GptResponse) (ch : Choice) (t : List Choice)
    (hch : r.choices = ch :: t)
    (h : (findBlocks ch.message.content.data).length < 3 ∨
      ∃ b0 b1 b2 rest, findBlocks ch.message.content.data = b0 :: b1 :: b2 :: rest ∧
        (pyStrip b0 = [] ∨ pyStrip b1 = [] ∨ pyStrip b2 = [])) :
    extractRelevantContent r = none := by
  simp only [extractRelevantContent, hch]
  by_cases hne : ch.message.content = ""
  · simp [extractFromText, hne]
  · simp only [extractFromText]
    rw [if_neg hne]
    rcases h with hlen | ⟨b0, b1, b2, rest, hfb, hempty⟩
    · rcases hfb : findBlocks ch.message.content.data with _ | ⟨x0, _ | ⟨x1, _ | ⟨x2, xr⟩⟩⟩
      · rfl
      · rfl
      · rfl
      · rw [hfb] at hlen
        simp only [List.length_cons] at hlen
        omega
    · rw [hfb]
      simp only []
      rw [if_pos hempty]

/-- Witness for `c2_all_or_nothing`: a two-block text, and a three-block
text whose second block is blank, both yield no artifacts. -/
theorem c2_all_or_nothing_witness :
    extractRelevantContent (mkResponseOfText
      (mkBlock "a".data "X".data (mkBlock "b".data "Y".data []))) = none ∧
    extractRelevantContent (mkResponseOfText
      (mkThreeBlockText "a".data "X".data "b".data "   ".data "c".data "Z".data)) = none := by
  constructor
  · refine c2_all_or_nothing _ ⟨⟨⟨mkBlock "a".data "X".data (mkBlock "b".data "Y".data [])⟩⟩⟩
      [] rfl (Or.inl ?_)
    have hfb : findBlocks (mkBlock "a".data "X".data (mkBlock "b".data "Y".data [])) =
        ["X".data, "Y".data] := by
      rw [findBlocks_mkBlock _ _ _ (by decide) (by decide),
        findBlocks_mkBlock _ _ _ (by decide) (by decide), findBlocks_nil]
    rw [hfb]
    simp
  · refine c2_all_or_nothing _
      ⟨⟨⟨mkThreeBlockText "a".data "X".data "b".data "   ".data "c".data "Z".data⟩⟩⟩ [] rfl
      (Or.inr ⟨"X".data, "   ".data, "Z".data, [], ?_, Or.inr (Or.inl (by decide))⟩)
    exact findBlocks_mkThreeBlockText _ _ _ _ _ _
      (by decide) (by decide) (by decide) (by decide) (by decide) (by decide)

/-- Claim C7: extraction proceeds only when at least one choice exists and
the first choice's message content is non-empty; an empty choices list or
an empty content makes it fail with no artifacts. -/
theorem c7_requires_choice_and_content (r : GptResponse) :
    (r.choices = [] → extractRelevantContent r = none) ∧
    (∀ ch t, r.choices = ch :: t → ch.message.content = "" →
      extractRelevantContent r = none) ∧
    (∀ a, extractRelevantContent r = some a →
      ∃ ch t, r.choices = ch :: t ∧ ch.message.content ≠ "") := by
  refine ⟨?_, ?_, ?_⟩
  · intro h
    simp [extractRelevantContent, h]
  · intro ch t hch hempty
    simp [extractRelevantContent, hch, extractFromText, hempty]
  · intro a ha
    rcases hch : r.choices with _ | ⟨ch, t⟩
    · simp [extractRelevantContent, hch] at ha
    · refine ⟨ch, t, rfl, ?_⟩
      intro hempty
      simp [extractRelevantContent, hch, extractFromText, hempty] at ha

/-- Witness for `c7_requires_choice_and_content`: an empty choices list
and an empty first content both yield no artifacts, and a successful
extraction exhibits a non-empty first content. -/
theorem c7_requires_choice_and_content_witness :
    extractRelevantContent ⟨[]⟩ = none ∧
    extractRelevantContent ⟨[⟨⟨""⟩⟩, ⟨⟨"tail"⟩⟩]⟩ = none ∧
    ∃ ch t,
      (mkResponseOfText (mkThreeBlockText "a".data "X".data "b".data "Y".data
        "c".data "Z".data)).choices = ch :: t ∧ ch.message.content ≠ "" := by
  refine ⟨(c7_requires_choice_and_content ⟨[]⟩).1 rfl,
    (c7_requires_choice_and_content ⟨[⟨⟨""⟩⟩, ⟨⟨"tail"⟩⟩]⟩).2.1 ⟨⟨""⟩⟩ [⟨⟨"tail"⟩⟩] rfl rfl, ?_⟩
  have hfb := findBlocks_mkThreeBlockText "a".data "X".data "b".data "Y".data "c".data "Z".data
    (by decide) (by decide) (by decide) (by decide) (by decide) (by decide)
  have ha : extractRelevantContent (mkResponseOfText
      (mkThreeBlockText "a".data "X".data "b".data "Y".data "c".data "Z".data)) =
      some ⟨pyStrip "X".data, pyStrip "Y".data, pyStrip "Z".data⟩ := by
    simp only [extractRelevantContent, mkResponseOfText, extractFromText]
    rw [if_neg (by decide), hfb]
    simp only []
    rw [if_neg (by decide)]
  exact (c7_requires_choice_and_content _).2.2 _ ha

/-- Claim C8: extraction is deterministic — it is a pure function of the
first choice's message content, so two responses carrying the same
completion text (in particular, the same response processed twice) yield
identical artifact content. -/
theorem c8_deterministic (r₁ r₂ : GptResponse)
    (h : r₁.choices.head?.map (fun ch => ch.message.content) =
      r₂.choices.head?.map (fun ch => ch.message.content)) :
    extractRelevantContent r₁ = extractRelevantContent r₂ := by
  rcases h1 : r₁.choices with _ | ⟨ch1, t1⟩ <;> rcases h2 : r₂.choices with _ | ⟨ch2, t2⟩ <;>
    rw [h1, h2] at h <;> simp only [List.head?, Option.map] at h
  · simp [extractRelevantContent, h1, h2]
  · exact absurd h (by simp)
  · exact absurd h (by simp)
  · simp only [Option.some.injEq] at h
    simp [extractRelevantContent, h1, h2, h]

/-- Witness for `c8_deterministic`: the same completion text carried by a
single-choice response and by a two-choice response extracts
identically. -/
theorem c8_deterministic_witness :
    extractRelevantContent ⟨[⟨⟨"no blocks here"⟩⟩]⟩ =
      extractRelevantContent ⟨[⟨⟨"no blocks here"⟩⟩, ⟨⟨"different tail"⟩⟩]⟩ :=
  c8_deterministic ⟨[⟨⟨"no blocks here"⟩⟩]⟩ ⟨[⟨⟨"no blocks here"⟩⟩, ⟨⟨"different tail"⟩⟩]⟩ rfl

end PromptToHoneypot
